import Mathlib

/-!
Shallow embedding of the offline/caching subsystem of the
Dynamic-solutions-digital/site-oficial repository: the service worker
(src/capabilities/script.js, service-worker section) and the client-side
performance optimizer (src/unnamed/part_001, class UltraPerformanceOptimizer).

Modelling conventions:
- A stored HTTP response is a record of status and body.
- The network is a function from URL strings to `Option Response`:
  `some r` models a fetch whose promise resolves with `r`; `none` models a
  rejected fetch (network error, and also the timeout rejection injected by
  `fetchWithTimeout`, which races the fetch against a timer).
- A cache partition (the `Cache` interface) is an association list from URL
  keys to responses; `cachePut` models `Cache.put` (overwrite the key),
  `cacheMatch` models `Cache.match`.
- The cache storage (`caches`) is an association list from partition names to
  partitions; `openCache` models `caches.open` (creates an empty partition if
  the name is absent), and partition deletion is modelled by filtering.
- Every async JS function is modelled by a Lean function on explicit state;
  where the JS promise can reject, the result is an `Except Unit _` whose
  `.error` constructor models the rejection, and a resolved value of
  `undefined` is modelled by `none : Option Response`.
-/

/-- A stored HTTP response: its status code and body. -/
structure Response where
  status : Nat
  body : String
deriving DecidableEq, Repr

/-- The network seen by the worker: `some r` means the fetch for that URL
resolves with `r`; `none` means it rejects (failure or timeout). -/
abbrev Network := String → Option Response

/-- One cache partition: an association list from request URLs to responses. -/
abbrev Cache := List (String × Response)

/-- `Cache.match`: the response stored under a URL, if any. -/
def cacheMatch (c : Cache) (k : String) : Option Response :=
  (c.find? (fun p => p.1 == k)).map (·.2)

/-- `Cache.put`: store a response under a URL, overwriting any previous entry. -/
def cachePut (c : Cache) (k : String) (r : Response) : Cache :=
  (k, r) :: c.filter (fun p => p.1 != k)

/-- The cache storage (`caches`): named partitions. -/
abbrev CacheStorage := List (String × Cache)

/-- `caches.has`-style check that a partition of this name exists. -/
def hasCache (s : CacheStorage) (name : String) : Bool :=
  s.any (fun c => c.1 == name)

/-- The contents of the named partition (empty when absent). -/
def getCache (s : CacheStorage) (name : String) : Cache :=
  ((s.find? (fun c => c.1 == name)).map (·.2)).getD []

/-- `caches.open`: create an empty partition of this name when absent. -/
def openCache (s : CacheStorage) (name : String) : CacheStorage :=
  if hasCache s name then s else s ++ [(name, [])]

/-- `caches.open(name)` followed by `cache.put(k, r)` on the opened partition. -/
def putInCache (s : CacheStorage) (name k : String) (r : Response) : CacheStorage :=
  (openCache s name).map (fun c => if c.1 == name then (c.1, cachePut c.2 k r) else c)

/-- Boolean test that `sub` occurs as a contiguous run inside `l`. -/
def charsInfixOf (sub : List Char) : List Char → Bool
  | [] => sub.isPrefixOf ([] : List Char)
  | a :: t => sub.isPrefixOf (a :: t) || charsInfixOf sub t

/-- JS `String.prototype.includes(sub)` on `s` (substring containment). -/
def strIncludes (sub s : String) : Bool :=
  charsInfixOf sub.data s.data

/-- JS `String.prototype.endsWith(suffix)` on `s`. -/
def strEndsWith (s suffix : String) : Bool :=
  suffix.data.isSuffixOf s.data

/-! ## Service-worker constants (script.js lines 772-809) -/

def CACHE_VERSION : String := "v1.2024"

def STATIC_CACHE : String := "static-" ++ CACHE_VERSION

def DYNAMIC_CACHE : String := "dynamic-" ++ CACHE_VERSION

def CRITICAL_CACHE : String := "critical-" ++ CACHE_VERSION

/-- `CACHE_STRATEGIES.critical`: the critical-path allowlist. -/
def criticalPaths : List String :=
  ["/", "/index.html", "/home/index.html", "/about/index.html",
   "/assessment/index.html", "/strategic-assessment-new/index.html",
   "/capabilities/index.html", "/analytics-dashboard/index.html"]

/-- `PRECACHE_URLS = [...CACHE_STRATEGIES.critical, '/image/Logo oficial.png']`. -/
def PRECACHE_URLS : List String :=
  criticalPaths ++ ["/image/Logo oficial.png"]

/-! ## fetchWithTimeout and the three strategies (script.js lines 892-979) -/

/-- `fetchWithTimeout` races `fetch(request)` against a timer; the timeout
rejection is folded into the network model, so the outcome is the network's
outcome for the URL. -/
def fetchWithTimeout (net : Network) (url : String) : Option Response :=
  net url

/-- Synthetic `new Response('Offline', { status: 503 })`. -/
def offlineResponse : Response :=
  { status := 503, body := "Offline" }

/-- `updateCacheInBackground`: fire-and-forget `fetch(request)`; on a response
with status 200 the partition is overwritten, any other outcome (non-200
status, rejection) leaves it unchanged. Returns the partition afterwards. -/
def updateCacheInBackground (net : Network) (url : String) (cache : Cache) : Cache :=
  match net url with
  | some r => if r.status == 200 then cachePut cache url r else cache
  | none => cache

/-- Outcome of `cacheFirstStrategy`: the response the promise resolves with
(the function catches every error, so it never rejects), whether it was served
from the cache without awaiting the network, the background-refresh URLs
issued during the call, and the partition afterwards. -/
structure CFOutcome where
  response : Response
  servedFromCache : Bool
  bgRefreshUrls : List String
  cache : Cache
deriving Repr

/-- `cacheFirstStrategy` (script.js lines 893-913). -/
def cacheFirstStrategy (net : Network) (url : String) (cache : Cache) : CFOutcome :=
  match cacheMatch cache url with
  | some r =>
    { response := r
      servedFromCache := true
      bgRefreshUrls := [url]
      cache := updateCacheInBackground net url cache }
  | none =>
    match fetchWithTimeout net url with
    | some r =>
      { response := r
        servedFromCache := false
        bgRefreshUrls := []
        cache := cachePut cache url r }
    | none =>
      { response := offlineResponse
        servedFromCache := false
        bgRefreshUrls := []
        cache := cache }

/-- Outcome of `staleWhileRevalidateStrategy`: `result` is the promise
outcome — `.ok (some r)` resolves with response `r`, `.ok none` resolves with
`undefined`, `.error ()` would be a rejection (the code never produces one) —
plus whether a cached copy was returned without awaiting the network, and the
partition afterwards. -/
structure SWROutcome where
  result : Except Unit (Option Response)
  servedStale : Bool
  cache : Cache

/-- `staleWhileRevalidateStrategy` (script.js lines 916-930): capture the
cached copy; start a network fetch whose success overwrites the partition
(no status check) and whose failure is caught, resolving with the captured
cached copy; return the cached copy if present, else the network promise. -/
def staleWhileRevalidateStrategy (net : Network) (url : String) (cache : Cache) :
    SWROutcome :=
  let cached := cacheMatch cache url
  match net url with
  | some r =>
    { result := .ok (if cached.isSome then cached else some r)
      servedStale := cached.isSome
      cache := cachePut cache url r }
  | none =>
    { result := .ok cached
      servedStale := cached.isSome
      cache := cache }

/-- Outcome of `networkFirstStrategy`: `result` is the promise outcome —
`.ok r` resolves with `r`, `.error ()` models the rethrown error — plus the
partition afterwards. -/
structure NFOutcome where
  result : Except Unit Response
  cache : Cache

/-- `networkFirstStrategy` (script.js lines 933-956): try the network with
timeout; on a response, store it iff its status is 200 and return it; on
failure fall back to the cached copy, and rethrow the error when none exists. -/
def networkFirstStrategy (net : Network) (url : String) (cache : Cache) : NFOutcome :=
  match fetchWithTimeout net url with
  | some r =>
    { result := .ok r
      cache := if r.status == 200 then cachePut cache url r else cache }
  | none =>
    match cacheMatch cache url with
    | some c => { result := .ok c, cache := cache }
    | none => { result := .error (), cache := cache }

/-! ## Request classification and dispatch (script.js lines 853-890) -/

/-- An intercepted request, with the components of `new URL(request.url)`
that the worker inspects: `url` is the full request URL (the cache key),
`protocol`, `hostname` and `pathname` are its parsed parts, `destination`
is `request.destination` and `method` is `request.method`. -/
structure Request where
  url : String
  protocol : String
  hostname : String
  pathname : String
  destination : String
  method : String
deriving DecidableEq, Repr

/-- The fetch listener's guards: handles only GET, skips
`chrome-extension:` URLs and hostnames containing `google-analytics`. -/
def fetchListenerHandles (req : Request) : Bool :=
  req.method == "GET" &&
  req.protocol != "chrome-extension:" &&
  !(strIncludes "google-analytics" req.hostname)

/-- The critical test of `handleRequest`:
`CACHE_STRATEGIES.critical.some(path => url.pathname === path || url.pathname.endsWith(path))`. -/
def isCriticalPath (p : String) : Bool :=
  criticalPaths.any (fun path => p == path || strEndsWith p path)

/-- The static-asset test of `handleRequest`:
`request.destination` is `style`, `script` or `image`. -/
def isStaticDestination (d : String) : Bool :=
  d == "style" || d == "script" || d == "image"

/-- The external test of `handleRequest`:
`!url.hostname.includes(location.hostname)` (`loc` is `location.hostname`). -/
def isExternalHost (loc : String) (req : Request) : Bool :=
  !(strIncludes loc req.hostname)

/-- The resource classes of the specification. -/
inductive ResourceClass where
  | critical
  | staticAsset
  | external
  | dynamic
deriving DecidableEq, Repr

/-- The classification implicit in `handleRequest`'s if-chain: critical first,
then static destination, then foreign hostname, else dynamic. -/
def classify (loc : String) (req : Request) : ResourceClass :=
  if isCriticalPath req.pathname then .critical
  else if isStaticDestination req.destination then .staticAsset
  else if isExternalHost loc req then .external
  else .dynamic

/-- What `handleRequest` dispatches to: a strategy applied to a named
partition. -/
inductive Dispatch where
  | cacheFirst (cacheName : String)
  | staleWhileRevalidate (cacheName : String)
  | networkFirst (cacheName : String)
deriving DecidableEq, Repr

/-- `handleRequest` (script.js lines 870-890) as the strategy/partition pair
it dispatches the request to. -/
def handleRequest (loc : String) (req : Request) : Dispatch :=
  if isCriticalPath req.pathname then .cacheFirst CRITICAL_CACHE
  else if isStaticDestination req.destination then .staleWhileRevalidate STATIC_CACHE
  else if isExternalHost loc req then .networkFirst DYNAMIC_CACHE
  else .networkFirst DYNAMIC_CACHE

/-- The three guards of the classification if-chain, as first-class values so
that evaluation orders can be compared. -/
inductive Guard where
  | gCritical
  | gStatic
  | gExternal
deriving DecidableEq, Repr

/-- Whether a guard's condition holds for a request. -/
def guardHolds (loc : String) (req : Request) : Guard → Bool
  | .gCritical => isCriticalPath req.pathname
  | .gStatic => isStaticDestination req.destination
  | .gExternal => isExternalHost loc req

/-- The class a guard selects when it fires. -/
def guardClass : Guard → ResourceClass
  | .gCritical => .critical
  | .gStatic => .staticAsset
  | .gExternal => .external

/-- Classification by evaluating the guards in a given order; the first one
that holds selects the class, and `dynamic` is the default. -/
def classifyIn (order : List Guard) (loc : String) (req : Request) : ResourceClass :=
  match order.find? (guardHolds loc req) with
  | some g => guardClass g
  | none => .dynamic

/-- The evaluation order hard-wired in `handleRequest`. -/
def codeGuardOrder : List Guard :=
  [.gCritical, .gStatic, .gExternal]

/-! ## Lifecycle handlers (script.js lines 812-851, 981-1016) -/

/-- `Response.ok` per the Fetch spec: the status is in the 200-299 range. -/
def responseOk (r : Response) : Bool :=
  decide (200 ≤ r.status) && decide (r.status < 300)

/-- Whether a fetch of this URL resolves with an ok response: the condition
under which `Cache.addAll` accepts the URL. -/
def fetchOk (net : Network) (u : String) : Bool :=
  match net u with
  | some r => responseOk r
  | none => false

/-- `Cache.addAll` per the Cache API: fetch every URL, and reject the whole
operation — storing nothing — when any fetch rejects or resolves with a
non-ok (outside 200-299) status; otherwise store all of them. `none` models
the rejection. -/
def cacheAddAll (net : Network) (cacheName : String) (urls : List String)
    (s : CacheStorage) : Option CacheStorage :=
  if urls.all (fetchOk net) then
    some (urls.foldl (fun acc u =>
      match net u with
      | some r => putInCache acc cacheName u r
      | none => acc) (openCache s cacheName))
  else none

/-- One best-effort warm fetch: `fetch(url).then(r => cache.put(url, r)).catch(() => {})`
against the named partition (no status check, failures swallowed). -/
def warmFetchInto (net : Network) (cacheName url : String) (s : CacheStorage) :
    CacheStorage :=
  match net url with
  | some r => putInCache s cacheName url r
  | none => s

/-- The two Google-Fonts stylesheet URLs of `preloadCriticalResources`. -/
def preloadFontUrl1 : String :=
  "https://fonts.googleapis.com/css2?family=Playfair+Display:wght@400;500;600;700;800;900&display=swap"

def preloadFontUrl2 : String :=
  "https://fonts.googleapis.com/css2?family=Inter:wght@300;400;500;600;700&display=swap"

/-- `preloadCriticalResources` (script.js lines 982-998): open the static
partition and warm both font URLs, each one best-effort. -/
def preloadCriticalResources (net : Network) (s : CacheStorage) : CacheStorage :=
  warmFetchInto net STATIC_CACHE preloadFontUrl2
    (warmFetchInto net STATIC_CACHE preloadFontUrl1 (openCache s STATIC_CACHE))

/-- Outcome of the install handler: whether `event.waitUntil`'s promise
resolved, the cache storage afterwards, and whether `self.skipWaiting()`
was called during install. -/
structure InstallOutcome where
  ok : Bool
  storage : CacheStorage
  skipWaitingCalled : Bool

/-- The `install` handler (script.js lines 812-827): `Promise.all` of
(a) `caches.open(CRITICAL_CACHE).then(c => c.addAll(PRECACHE_URLS))`,
(b) `preloadCriticalResources()`, (c) `self.skipWaiting()`. A rejection of
the `addAll` rejects the `waitUntil` promise but does not undo or prevent
the sibling steps. -/
def installHandler (net : Network) (s : CacheStorage) : InstallOutcome :=
  let afterAddAll := cacheAddAll net CRITICAL_CACHE PRECACHE_URLS s
  let base := afterAddAll.getD (openCache s CRITICAL_CACHE)
  { ok := afterAddAll.isSome
    storage := preloadCriticalResources net base
    skipWaitingCalled := true }

/-- The cleanup step of the `activate` handler: delete every partition whose
name does not contain `CACHE_VERSION`
(`cacheNames.filter(n => !n.includes(CACHE_VERSION)).map(n => caches.delete(n))`). -/
def cleanupOldCaches (s : CacheStorage) : CacheStorage :=
  s.filter (fun c => strIncludes CACHE_VERSION c.1)

/-- The two pages warmed by `warmupCache`. -/
def warmupPage1 : String := "/about/index.html"

def warmupPage2 : String := "/assessment/index.html"

/-- `warmupCache` (script.js lines 1001-1016): open the critical partition
and warm the two pages, each one best-effort. -/
def warmupCache (net : Network) (s : CacheStorage) : CacheStorage :=
  warmFetchInto net CRITICAL_CACHE warmupPage2
    (warmFetchInto net CRITICAL_CACHE warmupPage1 (openCache s CRITICAL_CACHE))

/-- The `activate` handler (script.js lines 830-851): delete the old-version
partitions, claim the clients (not cache-relevant), and warm up the critical
partition. -/
def activateHandler (net : Network) (s : CacheStorage) : CacheStorage :=
  warmupCache net (cleanupOldCaches s)

/-! ## Message handling (script.js lines 1019-1057) -/

/-- `cachePage` (script.js lines 1036-1044): open the dynamic partition,
fetch the URL and store the response (no status check); a fetch failure is
caught and only logged. -/
def cachePage (net : Network) (url : String) (s : CacheStorage) : CacheStorage :=
  warmFetchInto net DYNAMIC_CACHE url (openCache s DYNAMIC_CACHE)

/-- `prefetchRoutes` (script.js lines 1047-1057): open the critical partition
and, independently for each route, fetch it and store the response (no status
check), swallowing each failure. -/
def prefetchRoutes (net : Network) (routes : List String) (s : CacheStorage) :
    CacheStorage :=
  routes.foldl (fun acc route => warmFetchInto net CRITICAL_CACHE route acc)
    (openCache s CRITICAL_CACHE)

/-- The command messages of the message channel; `otherMsg` stands for any
payload whose `type` is none of the three commands. -/
inductive SWMessage where
  | skipWaitingMsg
  | cachePageMsg (url : String)
  | prefetchRoutesMsg (routes : List String)
  | otherMsg
deriving DecidableEq, Repr

/-- Outcome of the message handler: the cache storage afterwards and whether
`self.skipWaiting()` was called. -/
structure MessageOutcome where
  storage : CacheStorage
  skipWaitingCalled : Bool

/-- The `message` handler (script.js lines 1019-1033). -/
def messageHandler (net : Network) (msg : SWMessage) (s : CacheStorage) :
    MessageOutcome :=
  match msg with
  | .skipWaitingMsg => { storage := s, skipWaitingCalled := true }
  | .cachePageMsg url => { storage := cachePage net url s, skipWaitingCalled := false }
  | .prefetchRoutesMsg routes =>
    { storage := prefetchRoutes net routes s, skipWaitingCalled := false }
  | .otherMsg => { storage := s, skipWaitingCalled := false }

/-! ## Client controller: resource hints and prefetch (part_001) -/

/-- URL-parser input cleaning: strip leading and trailing C0 controls and
spaces, then remove every tab, line feed and carriage return. -/
def cleanUrlInput (l : List Char) : List Char :=
  (((l.dropWhile (fun c => c.toNat ≤ 32)).reverse.dropWhile
      (fun c => c.toNat ≤ 32)).reverse).filter
    (fun c => c != '\t' && c != '\n' && c != '\r')

/-- Characters a URL scheme may contain after its leading letter. -/
def isSchemeChar (c : Char) : Bool :=
  c.isAlphanum || c == '+' || c == '-' || c == '.'

/-- ASCII lowercasing of a character list (scheme and host normalization). -/
def lowerChars (l : List Char) : List Char :=
  l.map Char.toLower

/-- The scheme of the input when it starts with `letter schemechar* ':'`,
lowercased and without the colon; `none` when the input has no scheme. -/
def schemeOf (input : List Char) : Option (List Char) :=
  match input with
  | [] => none
  | c :: _ =>
    if c.isAlpha then
      if (input.drop (input.takeWhile isSchemeChar).length).take 1 = [':'] then
        some (lowerChars (input.takeWhile isSchemeChar))
      else none
    else none

/-- The special schemes with tuple origins, paired with their default ports
(`file:` has an opaque origin and is handled with the non-special ones). -/
def specialSchemes : List (List Char × List Char) :=
  [("http".data, "80".data), ("https".data, "443".data), ("ws".data, "80".data),
   ("wss".data, "443".data), ("ftp".data, "21".data)]

/-- The URL parser treats `\` like `/` in special URLs. -/
def isSlash (c : Char) : Bool :=
  c == '/' || c == '\\'

/-- Whether the input starts with two slash-like characters (the condition
for an authority to follow in a relative or same-scheme special URL). -/
def startsWithTwoSlashes (l : List Char) : Bool :=
  match l with
  | a :: b :: _ => isSlash a && isSlash b
  | _ => false

/-- The authority of a special URL: everything up to the first slash,
backslash, query or fragment. -/
def authorityOf (l : List Char) : List Char :=
  l.takeWhile (fun c => !(isSlash c) && c != '?' && c != '#')

/-- The characters after the last occurrence of the separator. -/
def afterLastSep (sep : Char) (l : List Char) : List Char :=
  (l.reverse.takeWhile (fun c => c != sep)).reverse

/-- The numeric value of a digit list. -/
def digitsToNat (l : List Char) : Nat :=
  l.foldl (fun n c => n * 10 + (c.toNat - 48)) 0

/-- The serialized origin of a special-scheme URL, from its scheme, default
port and authority: the userinfo (up to the last `@`) is dropped, the host
(up to the first `:`) is lowercased, and the port is omitted when empty or
equal to the scheme's default; `none` models the URL constructor throwing
(empty host, non-numeric or out-of-range port). ASCII hosts without
percent-encoding or IPv6 brackets are modelled. -/
def specialOriginFromAuthority (sch defaultPort auth : List Char) : Option String :=
  let hp := if auth.contains '@' then afterLastSep '@' auth else auth
  let host := lowerChars (hp.takeWhile (fun c => c != ':'))
  let port := (hp.dropWhile (fun c => c != ':')).drop 1
  if host.isEmpty then none
  else if port.isEmpty then some ⟨sch ++ "://".data ++ host⟩
  else if !(port.all Char.isDigit) || decide (65535 < digitsToNat port) then none
  else if port = defaultPort then some ⟨sch ++ "://".data ++ host⟩
  else some ⟨sch ++ "://".data ++ host ++ ':' :: port⟩

/-- The scheme of a base origin string (the characters before its colon). -/
def baseSchemeOf (baseOrigin : String) : List Char :=
  baseOrigin.data.takeWhile (fun c => c != ':')

/-- The origin of an input that carries its own scheme. A special scheme
other than the base's consumes any run of slashes and then an authority; the
base's own scheme does so only after two slashes and is otherwise parsed as
relative, keeping the base origin; a non-special scheme (`mailto:`, `tel:`,
`data:`, `javascript:`, `file:`, custom) has an opaque origin, serialized
as `"null"`. -/
def schemedOrigin (baseOrigin : String) (sch input : List Char) : Option String :=
  match specialSchemes.lookup sch with
  | some defaultPort =>
    if sch = baseSchemeOf baseOrigin &&
        !(startsWithTwoSlashes (input.drop (sch.length + 1))) then
      some baseOrigin
    else
      specialOriginFromAuthority sch defaultPort
        (authorityOf ((input.drop (sch.length + 1)).dropWhile isSlash))
  | none => some "null"

/-- The origin of a protocol-relative input (`//host/...` against the base's
scheme). -/
def protocolRelativeOrigin (baseOrigin : String) (input : List Char) : Option String :=
  match specialSchemes.lookup (baseSchemeOf baseOrigin) with
  | some defaultPort =>
    specialOriginFromAuthority (baseSchemeOf baseOrigin) defaultPort
      (authorityOf (input.dropWhile isSlash))
  | none => some baseOrigin

/-- `new URL(href, baseOrigin).origin`: `some o` is the serialized origin
(`"null"` for opaque origins) and `none` models the constructor throwing.
An input without a scheme is protocol-relative after two slashes and
otherwise relative, keeping the base origin. -/
def urlOrigin (baseOrigin href : String) : Option String :=
  match schemeOf (cleanUrlInput href.data) with
  | some sch => schemedOrigin baseOrigin sch (cleanUrlInput href.data)
  | none =>
    if startsWithTwoSlashes (cleanUrlInput href.data) then
      protocolRelativeOrigin baseOrigin (cleanUrlInput href.data)
    else some baseOrigin

/-- `isInternalLink` (part_001 lines 523-530):
`new URL(href, window.location.origin).origin === window.location.origin`,
with the constructor throwing caught as `false`. -/
def isInternalLink (baseOrigin href : String) : Bool :=
  match urlOrigin baseOrigin href with
  | some origin => origin == baseOrigin
  | none => false

/-- State of the optimizer that the hint machinery touches: the
`resourceHints` dedup set (as a list of hrefs) and the `<link>` elements
appended to the document head, each as its `(rel, href)` pair. -/
structure OptimizerState where
  resourceHints : List String
  headLinks : List (String × String)
deriving DecidableEq, Repr

/-- The optimizer's state at construction: empty set, no appended links. -/
def initialOptimizerState : OptimizerState :=
  { resourceHints := [], headLinks := [] }

/-- Append one `<link rel=... href=...>` guarded by the dedup set: used by
both `setupResourceHints` and `prefetchResource`. Adds the link and records
the href only when the href is not yet in the set. -/
def addHintIfNew (st : OptimizerState) (rel href : String) : OptimizerState :=
  if st.resourceHints.contains href then st
  else
    { resourceHints := href :: st.resourceHints
      headLinks := st.headLinks ++ [(rel, href)] }

/-- The fixed hint list of `setupResourceHints` (part_001 lines 54-78),
as `(rel, href)` pairs. -/
def bootstrapHints : List (String × String) :=
  [("preconnect", "https://fonts.googleapis.com"),
   ("preconnect", "https://fonts.gstatic.com"),
   ("dns-prefetch", "//cdnjs.cloudflare.com"),
   ("prefetch", "/about/index.html"),
   ("prefetch", "/assessment/index.html"),
   ("preload", "/image/Logo oficial.png")]

/-- `setupResourceHints`: append each fixed hint unless its href is already
in the dedup set, recording the href in the set. -/
def setupResourceHints (st : OptimizerState) : OptimizerState :=
  bootstrapHints.foldl (fun acc h => addHintIfNew acc h.1 h.2) st

/-- `prefetchResource` (part_001 lines 532-540): append a
`<link rel="prefetch">` for the href only when the href is not in the dedup
set and the link is internal, then record it in the set. -/
def prefetchResource (baseOrigin : String) (st : OptimizerState) (href : String) :
    OptimizerState :=
  if !(st.resourceHints.contains href) && isInternalLink baseOrigin href then
    addHintIfNew st "prefetch" href
  else st

/-- A sequence of prefetch triggers (hover, viewport, scroll sampling), each
of which calls `prefetchResource` on a link href. -/
def triggerPrefetches (baseOrigin : String) (st : OptimizerState)
    (hrefs : List String) : OptimizerState :=
  hrefs.foldl (prefetchResource baseOrigin) st

/-- The number of `<link rel="prefetch">` elements for this href that the
optimizer has appended. -/
def prefetchHintCount (st : OptimizerState) (href : String) : Nat :=
  st.headLinks.countP (fun h => h.1 == "prefetch" && h.2 == href)

/-! ## Derived notions and concrete example inputs -/

/-- The names of the partitions present in the cache storage. -/
def partitionNames (s : CacheStorage) : List String :=
  s.map (·.1)

/-- The fixed class-to-strategy table of the specification (§3 Strategy
Assignment). -/
def strategyFor : ResourceClass → Dispatch
  | .critical => .cacheFirst CRITICAL_CACHE
  | .staticAsset => .staleWhileRevalidate STATIC_CACHE
  | .external => .networkFirst DYNAMIC_CACHE
  | .dynamic => .networkFirst DYNAMIC_CACHE

/-- A network where the fetch of `/` fails and every other fetch resolves
with a 200 response. -/
def netFailRoot : Network :=
  fun u => if u == "/" then none else some { status := 200, body := "ok" }

/-- A network where every fetch resolves with a 200 response. -/
def netAllOk : Network :=
  fun _ => some { status := 200, body := "ok" }

/-- A network where every fetch rejects. -/
def netAllFail : Network :=
  fun _ => none

/-- A network where every fetch resolves with a 404 response. -/
def netAll404 : Network :=
  fun _ => some { status := 404, body := "not found" }

/-- A cache storage holding one old-version partition and the current static
partition (the dynamic partition has not been created yet). -/
def storageBeforeActivate : CacheStorage :=
  [("critical-v1.2023", []), ("static-v1.2024", [])]

/-- A same-origin request for `/index.html` whose destination is `image`:
both the critical-path guard and the static-destination guard hold for it. -/
def reqIndexImage : Request :=
  { url := "https://example.com/index.html"
    protocol := "https:"
    hostname := "example.com"
    pathname := "/index.html"
    destination := "image"
    method := "GET" }

/-- A same-origin GET navigation for `/blog/index.html`, a path absent from
the critical allowlist but ending in the allowlist entry `/index.html`. -/
def reqBlogIndex : Request :=
  { url := "https://example.com/blog/index.html"
    protocol := "https:"
    hostname := "example.com"
    pathname := "/blog/index.html"
    destination := "document"
    method := "GET" }

/-- A 404 response, used to exercise the status checks. -/
def notFoundResponse : Response :=
  { status := 404, body := "not found" }

/-- A 200 response. -/
def okResponse : Response :=
  { status := 200, body := "ok" }

/-- Invariant of the optimizer's hint state: every URL has at most one
appended prefetch link, a URL with a prefetch link is recorded in the dedup
set, and a URL that is not internal has no prefetch link. -/
def HintInv (baseOrigin : String) (st : OptimizerState) : Prop :=
  ∀ href : String,
    prefetchHintCount st href ≤ 1 ∧
    (1 ≤ prefetchHintCount st href → st.resourceHints.contains href = true) ∧
    (isInternalLink baseOrigin href = false → prefetchHintCount st href = 0)

/-! ## Association-list lemmas for caches and the cache storage -/

theorem cacheMatch_cachePut_self (c : Cache) (k : String) (r : Response) :
    cacheMatch (cachePut c k r) k = some r := by
  simp [cacheMatch, cachePut]

theorem cacheMatch_filter_ne (c : Cache) (k k' : String) (h : k' ≠ k) :
    cacheMatch (c.filter fun p => p.1 != k) k' = cacheMatch c k' := by
  induction c with
  | nil => rfl
  | cons a t ih =>
    by_cases ha : a.1 = k
    · rw [List.filter_cons_of_neg (by simp [ha])]
      rw [ih]
      unfold cacheMatch
      rw [List.find?_cons_of_neg _ (by simp; exact fun hh => h (hh ▸ ha))]
    · rw [List.filter_cons_of_pos (by simp [ha])]
      by_cases hk' : a.1 = k'
      · unfold cacheMatch
        rw [List.find?_cons_of_pos _ (by simp [hk']), List.find?_cons_of_pos _ (by simp [hk'])]
      · unfold cacheMatch at ih ⊢
        rw [List.find?_cons_of_neg _ (by simp [hk']), List.find?_cons_of_neg _ (by simp [hk']), ih]

theorem cacheMatch_cachePut_ne (c : Cache) (k k' : String) (r : Response) (h : k' ≠ k) :
    cacheMatch (cachePut c k r) k' = cacheMatch c k' := by
  unfold cachePut
  rw [show cacheMatch ((k, r) :: c.filter fun p => p.1 != k) k'
      = cacheMatch (c.filter fun p => p.1 != k) k' from ?_,
    cacheMatch_filter_ne c k k' h]
  unfold cacheMatch
  rw [List.find?_cons_of_neg _ (by simp; exact fun hh => h hh.symm)]

theorem keyed_fst (name k : String) (r : Response) (c : String × Cache) :
    ((if c.1 == name then (c.1, cachePut c.2 k r) else c) : String × Cache).1 = c.1 := by
  split <;> rfl

theorem find?_map_put (name name' k : String) (r : Response) :
    ∀ l : CacheStorage,
      ((l.map fun c => if c.1 == name then (c.1, cachePut c.2 k r) else c).find?
        fun c => c.1 == name')
      = (l.find? fun c => c.1 == name').map
          fun c => if c.1 == name then (c.1, cachePut c.2 k r) else c := by
  intro l
  induction l with
  | nil => rfl
  | cons a t ih =>
    by_cases hp : a.1 = name'
    · rw [List.map_cons, List.find?_cons_of_pos _ (by rw [keyed_fst]; simpa using hp),
        List.find?_cons_of_pos _ (by simpa using hp), Option.map_some']
    · rw [List.map_cons, List.find?_cons_of_neg _ (by rw [keyed_fst]; simpa using hp),
        List.find?_cons_of_neg _ (by simpa using hp), ih]

theorem find?_openCache_self (s : CacheStorage) (name : String) :
    ∃ e : String × Cache, ((openCache s name).find? fun c => c.1 == name) = some e ∧
      e.1 = name ∧ e.2 = getCache s name := by
  unfold openCache
  by_cases h : hasCache s name
  · rw [if_pos h]
    have hex : ∃ x, x ∈ s ∧ (fun c : String × Cache => c.1 == name) x = true := by
      unfold hasCache at h
      simpa using List.any_eq_true.1 h
    have hsome : ((s.find? fun c => c.1 == name).isSome) = true := List.find?_isSome.2 hex
    obtain ⟨e, he⟩ := Option.isSome_iff_exists.1 hsome
    refine ⟨e, he, ?_, ?_⟩
    · have := List.find?_some he
      simpa using this
    · unfold getCache
      rw [he, Option.map_some', Option.getD_some]
  · rw [if_neg h]
    have hnone : (s.find? fun c => c.1 == name) = none := by
      rw [List.find?_eq_none]
      intro x hx hb
      exact h (List.any_eq_true.2 ⟨x, hx, hb⟩)
    refine ⟨(name, []), ?_, rfl, ?_⟩
    · rw [List.find?_append, hnone, Option.none_or]
      simp
    · unfold getCache
      rw [hnone]
      rfl

theorem getCache_putInCache_self (s : CacheStorage) (name k : String) (r : Response) :
    getCache (putInCache s name k r) name = cachePut (getCache s name) k r := by
  obtain ⟨e, he, he1, he2⟩ := find?_openCache_self s name
  unfold putInCache getCache
  rw [find?_map_put, he, Option.map_some', Option.map_some']
  rw [if_pos (by simp [he1])]
  rw [Option.getD_some]
  rw [he2]
  rfl

theorem find?_openCache_ne (s : CacheStorage) (name name' : String) (h : name' ≠ name) :
    ((openCache s name).find? fun c => c.1 == name') = s.find? fun c => c.1 == name' := by
  unfold openCache
  split
  · rfl
  · rw [List.find?_append]
    have hnone : (([((name, []) : String × Cache)]).find? fun c => c.1 == name') = none := by
      simp
      exact fun hh => h hh.symm
    rw [hnone, Option.or_none]

theorem getCache_putInCache_ne (s : CacheStorage) (name name' k : String) (r : Response)
    (h : name' ≠ name) :
    getCache (putInCache s name k r) name' = getCache s name' := by
  unfold putInCache getCache
  rw [find?_map_put, find?_openCache_ne s name name' h]
  cases hf : s.find? fun c => c.1 == name' with
  | none => rfl
  | some e =>
    have he1 : e.1 = name' := by
      have := List.find?_some hf
      simpa using this
    rw [Option.map_some', if_neg (by simp [he1]; exact h)]

theorem partitionNames_putInCache (s : CacheStorage) (name k : String) (r : Response) :
    partitionNames (putInCache s name k r) = partitionNames (openCache s name) := by
  unfold partitionNames putInCache
  rw [List.map_map]
  apply List.map_congr_left
  intro c _
  simp only [Function.comp]
  split <;> rfl

theorem partitionNames_openCache (s : CacheStorage) (name : String) :
    partitionNames (openCache s name)
    = if hasCache s name then partitionNames s else partitionNames s ++ [name] := by
  unfold openCache partitionNames
  split <;> simp

theorem hasCache_iff_mem (s : CacheStorage) (n : String) :
    hasCache s n = true ↔ n ∈ partitionNames s := by
  unfold hasCache partitionNames
  rw [List.any_eq_true]
  constructor
  · rintro ⟨c, hc, hb⟩
    exact List.mem_map.2 ⟨c, hc, by simpa using hb⟩
  · intro h
    obtain ⟨c, hc, rfl⟩ := List.mem_map.1 h
    exact ⟨c, hc, by simp⟩

theorem getCache_openCache_ne (s : CacheStorage) (name name' : String) (h : name' ≠ name) :
    getCache (openCache s name) name' = getCache s name' := by
  unfold getCache
  rw [find?_openCache_ne s name name' h]

theorem cacheMatch_getCache_warmFetchInto_self (net : Network) (cacheName url : String)
    (s : CacheStorage) (r : Response) (hn : net url = some r) :
    cacheMatch (getCache (warmFetchInto net cacheName url s) cacheName) url = some r := by
  unfold warmFetchInto
  rw [hn, getCache_putInCache_self, cacheMatch_cachePut_self]

theorem cacheMatch_getCache_warmFetchInto_ne (net : Network) (cacheName url url' : String)
    (s : CacheStorage) (h : url' ≠ url) :
    cacheMatch (getCache (warmFetchInto net cacheName url s) cacheName) url'
    = cacheMatch (getCache s cacheName) url' := by
  unfold warmFetchInto
  cases hn : net url with
  | none => rfl
  | some r => rw [getCache_putInCache_self, cacheMatch_cachePut_ne _ _ _ _ h]

theorem foldl_warm_not_mem (net : Network) :
    ∀ (routes : List String) (acc : CacheStorage) (url : String), url ∉ routes →
      cacheMatch (getCache
        (routes.foldl (fun acc route => warmFetchInto net CRITICAL_CACHE route acc) acc)
        CRITICAL_CACHE) url
      = cacheMatch (getCache acc CRITICAL_CACHE) url := by
  intro routes
  induction routes with
  | nil => intro acc url _; rfl
  | cons rt rest ih =>
    intro acc url hmem
    have h1 : url ≠ rt := fun he => hmem (he ▸ List.mem_cons_self rt rest)
    have h2 : url ∉ rest := fun he => hmem (List.mem_cons_of_mem rt he)
    rw [List.foldl_cons, ih _ url h2,
      cacheMatch_getCache_warmFetchInto_ne net _ rt url acc h1]

theorem foldl_warm_mem (net : Network) :
    ∀ (routes : List String) (acc : CacheStorage) (url : String) (r : Response),
      url ∈ routes → net url = some r →
      cacheMatch (getCache
        (routes.foldl (fun acc route => warmFetchInto net CRITICAL_CACHE route acc) acc)
        CRITICAL_CACHE) url = some r := by
  intro routes
  induction routes with
  | nil => intro acc url r h _; cases h
  | cons rt rest ih =>
    intro acc url r hmem hn
    rw [List.foldl_cons]
    by_cases hr : url ∈ rest
    · exact ih _ url r hr hn
    · have heq : url = rt := by
        rcases List.mem_cons.1 hmem with h | h
        · exact h
        · exact absurd h hr
      subst heq
      rw [foldl_warm_not_mem net rest _ url hr,
        cacheMatch_getCache_warmFetchInto_self net _ url acc r hn]

theorem mem_names_openCache (s : CacheStorage) (name n : String)
    (h : n ∈ partitionNames (openCache s name)) :
    n ∈ partitionNames s ∨ n = name := by
  rw [partitionNames_openCache] at h
  by_cases hc : hasCache s name
  · rw [if_pos hc] at h; exact Or.inl h
  · rw [if_neg hc] at h
    rcases List.mem_append.1 h with h | h
    · exact Or.inl h
    · exact Or.inr (by simpa using h)

theorem mem_names_warmFetchInto (net : Network) (name url n : String) (s : CacheStorage)
    (h : n ∈ partitionNames (warmFetchInto net name url s)) :
    n ∈ partitionNames s ∨ n = name := by
  unfold warmFetchInto at h
  cases hn : net url with
  | none => rw [hn] at h; exact Or.inl h
  | some r =>
    rw [hn] at h
    rw [partitionNames_putInCache] at h
    exact mem_names_openCache s name n h

theorem names_openCache_superset (s : CacheStorage) (name n : String)
    (h : n ∈ partitionNames s) : n ∈ partitionNames (openCache s name) := by
  rw [partitionNames_openCache]
  by_cases hc : hasCache s name
  · rw [if_pos hc]; exact h
  · rw [if_neg hc]; exact List.mem_append_left _ h

theorem self_mem_names_openCache (s : CacheStorage) (name : String) :
    name ∈ partitionNames (openCache s name) := by
  rw [partitionNames_openCache]
  by_cases hc : hasCache s name
  · rw [if_pos hc]; exact (hasCache_iff_mem s name).1 hc
  · rw [if_neg hc]; exact List.mem_append_right _ (by simp)

theorem names_warmFetchInto_superset (net : Network) (name url n : String) (s : CacheStorage)
    (h : n ∈ partitionNames s) : n ∈ partitionNames (warmFetchInto net name url s) := by
  unfold warmFetchInto
  cases hn : net url with
  | none => exact h
  | some r =>
    rw [partitionNames_putInCache]
    exact names_openCache_superset s name n h

/-- A scheme-free input that does not start with two slashes resolves
against the base and keeps the base origin. -/
theorem urlOrigin_relative (base href : String)
    (h1 : schemeOf (cleanUrlInput href.data) = none)
    (h2 : startsWithTwoSlashes (cleanUrlInput href.data) = false) :
    urlOrigin base href = some base := by
  unfold urlOrigin
  rw [h1, h2]
  rfl

/-- A relative href is internal for every base origin. -/
theorem isInternalLink_of_relative (base href : String)
    (h1 : schemeOf (cleanUrlInput href.data) = none)
    (h2 : startsWithTwoSlashes (cleanUrlInput href.data) = false) :
    isInternalLink base href = true := by
  unfold isInternalLink
  rw [urlOrigin_relative base href h1 h2]
  simp

theorem isInternalLink_aboutIndex (base : String) :
    isInternalLink base "/about/index.html" = true :=
  isInternalLink_of_relative base "/about/index.html" (by decide) (by decide)

theorem isInternalLink_assessmentIndex (base : String) :
    isInternalLink base "/assessment/index.html" = true :=
  isInternalLink_of_relative base "/assessment/index.html" (by decide) (by decide)

theorem prefetchHintCount_addHintIfNew (st : OptimizerState) (rel href h : String) :
    prefetchHintCount (addHintIfNew st rel href) h
    = if st.resourceHints.contains href then prefetchHintCount st h
      else prefetchHintCount st h + (if rel == "prefetch" && href == h then 1 else 0) := by
  unfold addHintIfNew prefetchHintCount
  by_cases hc : st.resourceHints.contains href
  · rw [if_pos hc, if_pos hc]
  · rw [if_neg hc, if_neg hc]
    simp [List.countP_append, List.countP_cons]

theorem hintInv_addHintIfNew (base rel href : String) (st : OptimizerState)
    (hint : rel = "prefetch" → isInternalLink base href = true)
    (inv : HintInv base st) : HintInv base (addHintIfNew st rel href) := by
  intro h
  obtain ⟨i1, i2, i3⟩ := inv h
  by_cases hc : st.resourceHints.contains href
  · rw [show addHintIfNew st rel href = st by unfold addHintIfNew; rw [if_pos hc]]
    exact ⟨i1, i2, i3⟩
  · have hcount := prefetchHintCount_addHintIfNew st rel href h
    rw [if_neg hc] at hcount
    have hset : (addHintIfNew st rel href).resourceHints = href :: st.resourceHints := by
      unfold addHintIfNew
      rw [if_neg hc]
    by_cases hp : rel == "prefetch" && href == h
    · have hp2 := hp
      rw [Bool.and_eq_true] at hp2
      have hrel : rel = "prefetch" := by simpa using hp2.1
      have hh : href = h := by simpa using hp2.2
      have hzero : prefetchHintCount st h = 0 := by
        by_contra hnz
        have : 1 ≤ prefetchHintCount st h := Nat.one_le_iff_ne_zero.2 hnz
        have := i2 this
        rw [← hh] at this
        exact absurd this (by simpa using hc)
      rw [if_pos hp] at hcount
      refine ⟨?_, ?_, ?_⟩
      · rw [hcount, hzero]
      · intro _
        rw [hset]
        simp [hh]
      · intro hext
        rw [← hh] at hext
        rw [hint hrel] at hext
        cases hext
    · rw [if_neg hp] at hcount
      refine ⟨?_, ?_, ?_⟩
      · rw [hcount]; simpa using i1
      · intro hge
        rw [hcount] at hge
        have := i2 (by simpa using hge)
        rw [hset]
        have hmem : h ∈ st.resourceHints := by simpa using this
        simp [hmem]
      · intro hext
        rw [hcount]
        simp [i3 hext]

theorem hintInv_prefetchResource (base href : String) (st : OptimizerState)
    (inv : HintInv base st) : HintInv base (prefetchResource base st href) := by
  unfold prefetchResource
  by_cases hg : (!(st.resourceHints.contains href) && isInternalLink base href) = true
  · rw [if_pos hg]
    have hg2 := hg
    rw [Bool.and_eq_true] at hg2
    have hint : isInternalLink base href = true := hg2.2
    exact hintInv_addHintIfNew base "prefetch" href st (fun _ => hint) inv
  · rw [if_neg hg]
    exact inv

theorem hintInv_triggerPrefetches (base : String) (hrefs : List String) :
    ∀ st : OptimizerState, HintInv base st → HintInv base (triggerPrefetches base st hrefs) := by
  induction hrefs with
  | nil => intro st inv; exact inv
  | cons h t ih =>
    intro st inv
    unfold triggerPrefetches at ih ⊢
    rw [List.foldl_cons]
    exact ih _ (hintInv_prefetchResource base h st inv)

theorem hintInv_initial (base : String) : HintInv base initialOptimizerState := by
  intro href
  refine ⟨?_, ?_, ?_⟩
  · simp [prefetchHintCount, initialOptimizerState]
  · intro hge
    simp [prefetchHintCount, initialOptimizerState] at hge
  · intro _
    simp [prefetchHintCount, initialOptimizerState]

theorem hintInv_setup (base : String) (st : OptimizerState) (inv : HintInv base st) :
    HintInv base (setupResourceHints st) := by
  unfold setupResourceHints bootstrapHints
  simp only [List.foldl_cons, List.foldl_nil]
  apply hintInv_addHintIfNew _ _ _ _ (fun h => absurd h (by decide))
  apply hintInv_addHintIfNew _ _ _ _ (fun _ => isInternalLink_assessmentIndex base)
  apply hintInv_addHintIfNew _ _ _ _ (fun _ => isInternalLink_aboutIndex base)
  apply hintInv_addHintIfNew _ _ _ _ (fun h => absurd h (by decide))
  apply hintInv_addHintIfNew _ _ _ _ (fun h => absurd h (by decide))
  apply hintInv_addHintIfNew _ _ _ _ (fun h => absurd h (by decide))
  exact inv

/-! ## Claim theorems -/

/-- C4: for every request handled by the cache-first strategy: a cache hit is
returned without waiting on the network and exactly one background refresh is
issued, overwriting the partition only on a 200 response and ignoring
failures; a miss fetches from the network (timeout-bounded, modelled as part
of the network outcome), stores and returns the result; a failed fetch with
nothing cached yields the synthetic offline response with a 5xx status
instead of an error. -/
theorem claim_C4 (net : Network) (url : String) (cache : Cache) :
    (∀ r, cacheMatch cache url = some r →
      (cacheFirstStrategy net url cache).response = r ∧
      (cacheFirstStrategy net url cache).servedFromCache = true ∧
      (cacheFirstStrategy net url cache).bgRefreshUrls = [url] ∧
      (∀ r', net url = some r' → r'.status = 200 →
        cacheMatch (cacheFirstStrategy net url cache).cache url = some r') ∧
      (net url = none → (cacheFirstStrategy net url cache).cache = cache)) ∧
    (cacheMatch cache url = none →
      (∀ r, net url = some r →
        (cacheFirstStrategy net url cache).response = r ∧
        cacheMatch (cacheFirstStrategy net url cache).cache url = some r) ∧
      (net url = none →
        (cacheFirstStrategy net url cache).response = offlineResponse ∧
        500 ≤ offlineResponse.status ∧ offlineResponse.status < 600 ∧
        (cacheFirstStrategy net url cache).cache = cache)) := by
  constructor
  · intro r hr
    unfold cacheFirstStrategy
    rw [hr]
    refine ⟨rfl, rfl, rfl, ?_, ?_⟩
    · intro r' hn hs
      unfold updateCacheInBackground
      rw [hn]
      simp only [hs]
      rw [if_pos (by simp), cacheMatch_cachePut_self]
    · intro hn
      unfold updateCacheInBackground
      rw [hn]
  · intro hmiss
    constructor
    · intro r hn
      unfold cacheFirstStrategy fetchWithTimeout
      rw [hmiss, hn]
      exact ⟨rfl, cacheMatch_cachePut_self cache url r⟩
    · intro hn
      unfold cacheFirstStrategy fetchWithTimeout
      rw [hmiss, hn]
      exact ⟨rfl, by decide, by decide, rfl⟩

/-- Witness for C4 at concrete inputs: a hit on a one-entry cache is served
from the cache with one background refresh, and a miss on an empty cache with
a failing network yields the 503 offline response. -/
theorem claim_C4_witness :
    (cacheFirstStrategy netAllOk "/index.html" [("/index.html", notFoundResponse)]).response
      = notFoundResponse ∧
    (cacheFirstStrategy netAllOk "/index.html" [("/index.html", notFoundResponse)]).bgRefreshUrls
      = ["/index.html"] ∧
    (cacheFirstStrategy netAllFail "/x" []).response = offlineResponse := by
  refine ⟨?_, ?_, ?_⟩
  · exact ((claim_C4 netAllOk "/index.html" [("/index.html", notFoundResponse)]).1 notFoundResponse (by decide)).1
  · exact ((claim_C4 netAllOk "/index.html" [("/index.html", notFoundResponse)]).1 notFoundResponse (by decide)).2.2.1
  · exact (((claim_C4 netAllFail "/x" []).2 (by decide)).2 rfl).1

/-- C5: for every request handled by the network-first strategy: on a network
response the response is returned, and stored iff its status is 200; on a
network failure the cached copy is returned when present; otherwise the error
propagates (result is the rejection, no synthetic response) and the partition
is unchanged. -/
theorem claim_C5 (net : Network) (url : String) (cache : Cache) :
    (∀ r, net url = some r →
      (networkFirstStrategy net url cache).result = .ok r ∧
      (r.status = 200 →
        cacheMatch (networkFirstStrategy net url cache).cache url = some r) ∧
      (r.status ≠ 200 → (networkFirstStrategy net url cache).cache = cache)) ∧
    (net url = none →
      (∀ c, cacheMatch cache url = some c →
        (networkFirstStrategy net url cache).result = .ok c ∧
        (networkFirstStrategy net url cache).cache = cache) ∧
      (cacheMatch cache url = none →
        (networkFirstStrategy net url cache).result = .error () ∧
        (networkFirstStrategy net url cache).cache = cache)) := by
  constructor
  · intro r hn
    unfold networkFirstStrategy fetchWithTimeout
    rw [hn]
    refine ⟨rfl, ?_, ?_⟩
    · intro hs
      simp only [hs]
      rw [if_pos (by simp), cacheMatch_cachePut_self]
    · intro hs
      show (if (r.status == 200) = true then cachePut cache url r else cache) = cache
      rw [if_neg (by simpa using hs)]
  · intro hn
    constructor
    · intro c hc
      unfold networkFirstStrategy fetchWithTimeout
      rw [hn, hc]
      exact ⟨rfl, rfl⟩
    · intro hc
      unfold networkFirstStrategy fetchWithTimeout
      rw [hn, hc]
      exact ⟨rfl, rfl⟩

/-- Witness for C5 at concrete inputs: a 200 network response is stored and
returned; with a failing network the cached copy is returned when present,
and with an empty cache the rejection propagates. -/
theorem claim_C5_witness :
    (networkFirstStrategy netAllOk "/p" []).result = .ok okResponse ∧
    (networkFirstStrategy netAllFail "/p" [("/p", notFoundResponse)]).result
      = .ok notFoundResponse ∧
    (networkFirstStrategy netAllFail "/p" []).result = .error () := by
  refine ⟨?_, ?_, ?_⟩
  · exact ((claim_C5 netAllOk "/p" []).1 okResponse rfl).1
  · exact (((claim_C5 netAllFail "/p" [("/p", notFoundResponse)]).2 rfl).1
      notFoundResponse (by decide)).1
  · exact (((claim_C5 netAllFail "/p" []).2 rfl).2 (by decide)).1

/-- C3 counterexample: in the stale-while-revalidate strategy, with an empty
partition and a failing network fetch for `/x`, the call resolves
successfully with no value (`undefined`) — it does not surface the network
failure as a failure. -/
theorem claim_C3_counterexample :
    (staleWhileRevalidateStrategy netAllFail "/x" []).result = Except.ok none := by
  rfl

/-- C3 (amended): for every request handled by the stale-while-revalidate
strategy, a network fetch is started that overwrites the partition on any
response; a cached copy is returned immediately without waiting for the
network; with no cached copy the network response is returned on success,
but on network failure the call resolves with no value (the captured empty
cache lookup, i.e. `undefined`) instead of propagating the failure. -/
theorem claim_C3_amended (net : Network) (url : String) (cache : Cache) :
    (∀ r, net url = some r →
      cacheMatch (staleWhileRevalidateStrategy net url cache).cache url = some r) ∧
    (∀ c, cacheMatch cache url = some c →
      (staleWhileRevalidateStrategy net url cache).result = .ok (some c) ∧
      (staleWhileRevalidateStrategy net url cache).servedStale = true) ∧
    (cacheMatch cache url = none →
      (∀ r, net url = some r →
        (staleWhileRevalidateStrategy net url cache).result = .ok (some r)) ∧
      (net url = none →
        (staleWhileRevalidateStrategy net url cache).result = .ok none ∧
        (staleWhileRevalidateStrategy net url cache).cache = cache)) := by
  refine ⟨?_, ?_, ?_⟩
  · intro r hn
    unfold staleWhileRevalidateStrategy
    rw [hn]
    simp only []
    exact cacheMatch_cachePut_self cache url r
  · intro c hc
    unfold staleWhileRevalidateStrategy
    cases hn : net url with
    | some r => rw [hc]; exact ⟨rfl, rfl⟩
    | none => rw [hc]; exact ⟨rfl, rfl⟩
  · intro hc
    constructor
    · intro r hn
      unfold staleWhileRevalidateStrategy
      rw [hn, hc]
      rfl
    · intro hn
      unfold staleWhileRevalidateStrategy
      rw [hn, hc]
      exact ⟨rfl, rfl⟩

/-- Witness for C3 (amended) at concrete inputs: a cached copy is served
stale; an empty cache returns the network response; the network response
overwrites the partition. -/
theorem claim_C3_amended_witness :
    (staleWhileRevalidateStrategy netAllFail "/a" [("/a", notFoundResponse)]).result
      = .ok (some notFoundResponse) ∧
    (staleWhileRevalidateStrategy netAllOk "/a" []).result = .ok (some okResponse) ∧
    cacheMatch (staleWhileRevalidateStrategy netAllOk "/a" []).cache "/a" = some okResponse := by
  refine ⟨?_, ?_, ?_⟩
  · exact ((claim_C3_amended netAllFail "/a" [("/a", notFoundResponse)]).2.1
      notFoundResponse (by decide)).1
  · exact ((claim_C3_amended netAllOk "/a" []).2.2 (by decide)).1 okResponse rfl
  · exact (claim_C3_amended netAllOk "/a" []).1 okResponse rfl

/-- C6 counterexample: the classification guards overlap, so the class
depends on the evaluation order. For a same-origin GET of `/index.html` with
destination `image`, the code's order (critical, static, external) yields
`critical`, while evaluating the static-destination guard first yields
`static-asset`; hence the rule is not order-independent. -/
theorem claim_C6_counterexample :
    classify "example.com" reqIndexImage = ResourceClass.critical ∧
    classifyIn codeGuardOrder "example.com" reqIndexImage = ResourceClass.critical ∧
    classifyIn [Guard.gStatic, Guard.gCritical, Guard.gExternal] "example.com" reqIndexImage
      = ResourceClass.staticAsset := by
  refine ⟨?_, ?_, ?_⟩ <;> decide

/-- C6 (amended): classification is a pure deterministic function assigning
exactly one class, computed by evaluating the overlapping guards in the fixed
priority order critical, then static destination, then foreign host, with
`dynamic` as the default — it is order-dependent, not order-independent —
and `handleRequest` dispatches each request to the fixed strategy table entry
for its class. -/
theorem claim_C6_amended (loc : String) (req : Request) :
    classify loc req = classifyIn codeGuardOrder loc req ∧
    handleRequest loc req = strategyFor (classify loc req) := by
  constructor
  · unfold classify classifyIn codeGuardOrder guardHolds
    by_cases h1 : isCriticalPath req.pathname
    · rw [if_pos h1, List.find?_cons_of_pos _ (by simpa using h1)]
      rfl
    · rw [if_neg h1, List.find?_cons_of_neg _ (by simpa using h1)]
      by_cases h2 : isStaticDestination req.destination
      · rw [if_pos h2, List.find?_cons_of_pos _ (by simpa using h2)]
        rfl
      · rw [if_neg h2, List.find?_cons_of_neg _ (by simpa using h2)]
        by_cases h3 : isExternalHost loc req
        · rw [if_pos h3, List.find?_cons_of_pos _ (by simpa using h3)]
          rfl
        · rw [if_neg h3, List.find?_cons_of_neg _ (by simpa using h3)]
          rfl
  · unfold handleRequest classify strategyFor
    by_cases h1 : isCriticalPath req.pathname
    · rw [if_pos h1, if_pos h1]
    · rw [if_neg h1, if_neg h1]
      by_cases h2 : isStaticDestination req.destination
      · rw [if_pos h2, if_pos h2]
      · rw [if_neg h2, if_neg h2]
        by_cases h3 : isExternalHost loc req
        · rw [if_pos h3, if_pos h3]
        · rw [if_neg h3, if_neg h3]

/-- C7 counterexample: the install handler calls `self.skipWaiting()` itself
(under `event.waitUntil`), so the skip-waiting transition is not reserved to
the SKIP_WAITING command message. -/
theorem claim_C7_counterexample :
    (installHandler netAllOk []).skipWaitingCalled = true := by
  rfl

/-- C7 (amended): the install handler always performs the skip-waiting
transition itself (immediate activation), and among the command messages only
SKIP_WAITING triggers it — CACHE_PAGE, PREFETCH_ROUTES and unknown messages
never do. -/
theorem claim_C7_amended (net : Network) (s : CacheStorage) (url : String)
    (routes : List String) :
    (installHandler net s).skipWaitingCalled = true ∧
    (messageHandler net SWMessage.skipWaitingMsg s).skipWaitingCalled = true ∧
    (messageHandler net (SWMessage.cachePageMsg url) s).skipWaitingCalled = false ∧
    (messageHandler net (SWMessage.prefetchRoutesMsg routes) s).skipWaitingCalled = false ∧
    (messageHandler net SWMessage.otherMsg s).skipWaitingCalled = false :=
  ⟨rfl, rfl, rfl, rfl, rfl⟩

/-- C8: starting from the optimizer's bootstrap state, any sequence of
prefetch triggers (hover, viewport, scroll) leaves at most one appended
prefetch hint per URL, and zero prefetch hints for any URL that is not
internal to the page origin. -/
theorem claim_C8 (baseOrigin : String) (hrefs : List String) (href : String) :
    prefetchHintCount
      (triggerPrefetches baseOrigin (setupResourceHints initialOptimizerState) hrefs)
      href ≤ 1 ∧
    (isInternalLink baseOrigin href = false →
      prefetchHintCount
        (triggerPrefetches baseOrigin (setupResourceHints initialOptimizerState) hrefs)
        href = 0) := by
  have inv := hintInv_triggerPrefetches baseOrigin hrefs
    (setupResourceHints initialOptimizerState)
    (hintInv_setup baseOrigin initialOptimizerState (hintInv_initial baseOrigin))
  exact ⟨(inv href).1, (inv href).2.2⟩

/-- Witness for C8 at concrete inputs: hovering the internal link `/x` twice
appends at most one prefetch hint for it, and hovering the external link
`https://other.com/y` appends zero prefetch hints for it. -/
theorem claim_C8_witness :
    prefetchHintCount
      (triggerPrefetches "https://example.com" (setupResourceHints initialOptimizerState)
        ["/x", "/x"]) "/x" ≤ 1 ∧
    prefetchHintCount
      (triggerPrefetches "https://example.com" (setupResourceHints initialOptimizerState)
        ["https://other.com/y"]) "https://other.com/y" = 0 := by
  constructor
  · exact (claim_C8 "https://example.com" ["/x", "/x"] "/x").1
  · exact (claim_C8 "https://example.com" ["https://other.com/y"] "https://other.com/y").2
      (by decide)

/-- C9: the CACHE_PAGE handler stores whatever response the fetch resolves to
into the dynamic partition without a status check, PREFETCH_ROUTES does the
same into the critical partition, while the network-first store and the
cache-first background refresh store only status-200 responses. -/
theorem claim_C9 (net : Network) (s : CacheStorage) (url : String) (r : Response)
    (c : Cache) :
    (net url = some r →
      cacheMatch (getCache (cachePage net url s) DYNAMIC_CACHE) url = some r) ∧
    (net url = some r →
      cacheMatch (getCache (prefetchRoutes net [url] s) CRITICAL_CACHE) url = some r) ∧
    (net url = some r → r.status ≠ 200 →
      (networkFirstStrategy net url c).cache = c) ∧
    (net url = some r → r.status ≠ 200 →
      updateCacheInBackground net url c = c) := by
  refine ⟨?_, ?_, ?_, ?_⟩
  · intro hn
    unfold cachePage
    exact cacheMatch_getCache_warmFetchInto_self net DYNAMIC_CACHE url _ r hn
  · intro hn
    unfold prefetchRoutes
    rw [List.foldl_cons, List.foldl_nil]
    exact cacheMatch_getCache_warmFetchInto_self net CRITICAL_CACHE url _ r hn
  · intro hn hs
    unfold networkFirstStrategy fetchWithTimeout
    rw [hn]
    show (if (r.status == 200) = true then cachePut c url r else c) = c
    rw [if_neg (by simpa using hs)]
  · intro hn hs
    unfold updateCacheInBackground
    rw [hn]
    show (if (r.status == 200) = true then cachePut c url r else c) = c
    rw [if_neg (by simpa using hs)]

/-- Witness for C9 at concrete inputs: a 404 response is stored by CACHE_PAGE
and PREFETCH_ROUTES, but not by the network-first store or the background
refresh. -/
theorem claim_C9_witness :
    cacheMatch (getCache (cachePage (fun _ => some notFoundResponse) "/p" []) DYNAMIC_CACHE) "/p"
      = some notFoundResponse ∧
    cacheMatch (getCache (prefetchRoutes (fun _ => some notFoundResponse) ["/p"] []) CRITICAL_CACHE) "/p"
      = some notFoundResponse ∧
    (networkFirstStrategy (fun _ => some notFoundResponse) "/p" []).cache = [] ∧
    updateCacheInBackground (fun _ => some notFoundResponse) "/p" [] = [] := by
  have h := claim_C9 (fun _ => some notFoundResponse) [] "/p" notFoundResponse []
  exact ⟨h.1 rfl, h.2.1 rfl, h.2.2.1 rfl (by decide), h.2.2.2 rfl (by decide)⟩

/-- C10: the critical classification matches by path suffix: every request
that the fetch listener handles (a GET) from the page's origin whose path
ends with a critical allowlist entry is dispatched to the cache-first
strategy over the critical partition, whether or not the path itself is in
the allowlist. -/
theorem claim_C10 (loc : String) (req : Request) (entry : String)
    (_hhandled : fetchListenerHandles req = true)
    (_hsame : strIncludes loc req.hostname = true)
    (hmem : entry ∈ criticalPaths)
    (hsuf : strEndsWith req.pathname entry = true) :
    handleRequest loc req = Dispatch.cacheFirst CRITICAL_CACHE := by
  have hcrit : isCriticalPath req.pathname = true := by
    unfold isCriticalPath
    rw [List.any_eq_true]
    exact ⟨entry, hmem, by simp [hsuf]⟩
  unfold handleRequest
  rw [if_pos hcrit]

/-- Witness for C10 at a concrete input: the same-origin GET navigation to
`/blog/index.html` — a path absent from the allowlist but ending in the entry
`/index.html` — is dispatched to cache-first over the critical partition. -/
theorem claim_C10_witness :
    criticalPaths.contains "/blog/index.html" = false ∧
    handleRequest "example.com" reqBlogIndex = Dispatch.cacheFirst CRITICAL_CACHE := by
  constructor
  · decide
  · exact claim_C10 "example.com" reqBlogIndex "/index.html" (by decide) (by decide)
      (by decide) (by decide)

/-- Every partition surviving the cleanup step has the version tag in its
name. -/
theorem names_cleanup (s : CacheStorage) (n : String)
    (h : n ∈ partitionNames (cleanupOldCaches s)) :
    strIncludes CACHE_VERSION n = true := by
  unfold cleanupOldCaches partitionNames at h
  obtain ⟨c, hc, rfl⟩ := List.mem_map.1 h
  exact (List.mem_filter.1 hc).2

/-- C1 counterexample: with a network where the precache URL `/` fails and
every other fetch succeeds (so some fetches fail and others succeed), the
install step's `waitUntil` promise rejects: `cache.addAll` is atomic, so one
bad URL aborts the whole install-time precache rather than being isolated. -/
theorem claim_C1_counterexample :
    (installHandler netFailRoot []).ok = false ∧
    netFailRoot "/" = none ∧
    netFailRoot "/index.html" = some okResponse := by
  refine ⟨?_, rfl, rfl⟩
  decide

/-- C1 (amended): PREFETCH_ROUTES and the font warmup are per-item
best-effort — every URL whose fetch succeeds is stored in the target
partition and failed siblings are ignored — but the install-time precache
population uses the atomic `addAll`: one precache URL whose fetch rejects or
resolves with a non-ok (outside 200-299) response rejects the whole install
step, while install succeeds when every precache fetch resolves with an ok
response. -/
theorem claim_C1_amended (net : Network) (s : CacheStorage) (routes : List String) :
    (∀ url r, url ∈ routes → net url = some r →
      cacheMatch (getCache (prefetchRoutes net routes s) CRITICAL_CACHE) url = some r) ∧
    (∀ r, net preloadFontUrl1 = some r →
      cacheMatch (getCache (installHandler net s).storage STATIC_CACHE) preloadFontUrl1
        = some r) ∧
    (∀ r, net preloadFontUrl2 = some r →
      cacheMatch (getCache (installHandler net s).storage STATIC_CACHE) preloadFontUrl2
        = some r) ∧
    ((∃ u ∈ PRECACHE_URLS, fetchOk net u = false) → (installHandler net s).ok = false) ∧
    ((∀ u ∈ PRECACHE_URLS, fetchOk net u = true) → (installHandler net s).ok = true) := by
  refine ⟨?_, ?_, ?_, ?_, ?_⟩
  · intro url r hmem hn
    unfold prefetchRoutes
    exact foldl_warm_mem net routes _ url r hmem hn
  · intro r hn
    show cacheMatch (getCache (preloadCriticalResources net _) STATIC_CACHE)
      preloadFontUrl1 = some r
    unfold preloadCriticalResources
    rw [cacheMatch_getCache_warmFetchInto_ne net STATIC_CACHE preloadFontUrl2
      preloadFontUrl1 _ (by decide)]
    exact cacheMatch_getCache_warmFetchInto_self net STATIC_CACHE preloadFontUrl1 _ r hn
  · intro r hn
    show cacheMatch (getCache (preloadCriticalResources net _) STATIC_CACHE)
      preloadFontUrl2 = some r
    unfold preloadCriticalResources
    exact cacheMatch_getCache_warmFetchInto_self net STATIC_CACHE preloadFontUrl2 _ r hn
  · rintro ⟨u, hu, hnone⟩
    show (cacheAddAll net CRITICAL_CACHE PRECACHE_URLS s).isSome = false
    unfold cacheAddAll
    rw [if_neg]
    · rfl
    · intro hall
      have := List.all_eq_true.1 hall u hu
      rw [hnone] at this
      cases this
  · intro hall
    show (cacheAddAll net CRITICAL_CACHE PRECACHE_URLS s).isSome = true
    unfold cacheAddAll
    rw [if_pos (List.all_eq_true.2 hall)]
    rfl

/-- Witness for C1 (amended) at concrete inputs: prefetching `["/", "/b"]`
where `/` fails and `/b` succeeds stores `/b` in the critical partition; a
successful font fetch is stored by the warmup; the failing-root network and
the all-404 network reject install while the all-ok network completes it. -/
theorem claim_C1_amended_witness :
    cacheMatch
      (getCache (prefetchRoutes netFailRoot ["/", "/b"] []) CRITICAL_CACHE) "/b"
      = some okResponse ∧
    cacheMatch (getCache (installHandler netAllOk []).storage STATIC_CACHE) preloadFontUrl1
      = some okResponse ∧
    (installHandler netFailRoot []).ok = false ∧
    (installHandler netAll404 []).ok = false ∧
    (installHandler netAllOk []).ok = true := by
  refine ⟨?_, ?_, ?_, ?_, ?_⟩
  · exact (claim_C1_amended netFailRoot [] ["/", "/b"]).1 "/b" okResponse
      (by decide) (by decide)
  · exact (claim_C1_amended netAllOk [] []).2.1 okResponse rfl
  · exact (claim_C1_amended netFailRoot [] []).2.2.2.1 ⟨"/", by decide, by decide⟩
  · exact (claim_C1_amended netAll404 [] []).2.2.2.1 ⟨"/", by decide, by decide⟩
  · exact (claim_C1_amended netAllOk [] []).2.2.2.2 (fun u _ => rfl)

/-- C2 counterexample: activating over a storage that holds an old-version
critical partition and the current static partition (the dynamic partition
not yet created, the warmup network failing) leaves exactly two partitions,
not three. -/
theorem claim_C2_counterexample :
    partitionNames (activateHandler netAllFail storageBeforeActivate)
      = ["static-v1.2024", "critical-v1.2024"] ∧
    (partitionNames (activateHandler netAllFail storageBeforeActivate)).length = 2 := by
  refine ⟨?_, ?_⟩ <;> decide

/-- C2 (amended): after activation every remaining partition's name contains
the current version string, any partition whose name does not contain it has
been deleted and is no longer queryable, and the critical partition exists;
but the number of remaining partitions need not be exactly three (the dynamic
partition is created lazily, and survival is by substring match on the
version, not by the three fixed names). -/
theorem claim_C2_amended (net : Network) (s : CacheStorage) :
    (∀ n ∈ partitionNames (activateHandler net s), strIncludes CACHE_VERSION n = true) ∧
    (∀ n, strIncludes CACHE_VERSION n = false →
      hasCache (activateHandler net s) n = false) ∧
    hasCache (activateHandler net s) CRITICAL_CACHE = true := by
  have key : ∀ n ∈ partitionNames (activateHandler net s),
      strIncludes CACHE_VERSION n = true := by
    intro n hn
    unfold activateHandler warmupCache at hn
    have hver : strIncludes CACHE_VERSION CRITICAL_CACHE = true := by decide
    rcases mem_names_warmFetchInto net CRITICAL_CACHE warmupPage2 n _ hn with hn2 | rfl
    · rcases mem_names_warmFetchInto net CRITICAL_CACHE warmupPage1 n _ hn2 with hn3 | rfl
      · rcases mem_names_openCache _ CRITICAL_CACHE n hn3 with hn4 | rfl
        · exact names_cleanup s n hn4
        · exact hver
      · exact hver
    · exact hver
  refine ⟨key, ?_, ?_⟩
  · intro n hne
    cases h : hasCache (activateHandler net s) n with
    | false => rfl
    | true =>
      have hmem := (hasCache_iff_mem _ n).1 h
      have := key n hmem
      rw [this] at hne
      cases hne
  · apply (hasCache_iff_mem _ CRITICAL_CACHE).2
    unfold activateHandler warmupCache
    apply names_warmFetchInto_superset
    apply names_warmFetchInto_superset
    exact self_mem_names_openCache _ CRITICAL_CACHE

/-- Witness for C2 (amended) at concrete inputs: after activating over the
example storage, the old-version name is gone while the critical partition
exists. -/
theorem claim_C2_amended_witness :
    hasCache (activateHandler netAllFail storageBeforeActivate) "critical-v1.2023" = false ∧
    hasCache (activateHandler netAllFail storageBeforeActivate) CRITICAL_CACHE = true := by
  constructor
  · exact (claim_C2_amended netAllFail storageBeforeActivate).2.1 "critical-v1.2023"
      (by decide)
  · exact (claim_C2_amended netAllFail storageBeforeActivate).2.2
